import Mathlib

/-!
Verification development for the LXD network-ACL subsystem and the
lxd-agent devLXD API handlers.

The devLXD handler definitions (`smartResponse`, `devLXDConfigGetHandler`,
`devLXDConfigKeyGetHandler`) are shallow embeddings of the Go code in
`lxd-agent/response.go` and `lxd-agent/devlxd.go`.  The network-ACL
validator and priority compiler are not shipped in this source tree (only
their documentation is), so those definitions are modelled from the spec,
as marked in their doc comments.
-/

namespace LXDSpec

/-! ## devLXD responses (`lxd-agent/response.go`) -/

/-- Content carried by a `devLXDResponse` (`content any` in Go).  The
handlers studied here store either nothing (`nil`), a string, or a list of
strings. -/
inductive RespContent where
  | nil : RespContent
  | str (s : String) : RespContent
  | strList (l : List String) : RespContent
deriving DecidableEq

/-- Embedding of `devLXDResponse` from `lxd-agent/response.go`: content,
HTTP status code and content type (the `hook` field is used only by the
events endpoint and is not modelled). -/
structure DevLXDResponse where
  content : RespContent
  code : Nat
  ctype : String
deriving DecidableEq

/-- Embedding of `errorResponse` from `lxd-agent/response.go`. -/
def errorResponse (code : Nat) (msg : String) : DevLXDResponse :=
  { content := .str msg, code := code, ctype := "raw" }

/-- Embedding of `okResponse` from `lxd-agent/response.go`; the Go status
code `http.StatusOK` is 200. -/
def okResponse (ct : RespContent) (ctype : String) : DevLXDResponse :=
  { content := ct, code := 200, ctype := ctype }

/-- A Go `error` value as the devLXD handlers observe it: its message
(`err.Error()`) together with the result of `api.StatusErrorMatch(err)`
(a status code when the error chain contains an `api.StatusError`, which
may carry any status the error's creator chose; `none` when no match is
found).  `api.StatusErrorMatch` itself is outside this source tree, so its
result is carried as data. -/
structure GoError where
  msg : String
  statusMatch : Option Nat
deriving DecidableEq

/-- Embedding of `fmt.Errorf("<prefix>%w", err)` as the handlers use it:
the message gains a prefix while error unwrapping (hence
`api.StatusErrorMatch`) still sees the wrapped error. -/
def wrapErr (pre : String) (e : GoError) : GoError :=
  { msg := pre ++ e.msg, statusMatch := e.statusMatch }

/-- Embedding of `smartResponse` from `lxd-agent/response.go`: a `nil`
error yields `okResponse(nil, "")`; otherwise the matched status code (or
500 when no match) with the error's message. -/
def smartResponse : Option GoError → DevLXDResponse
  | none => okResponse .nil ""
  | some err =>
    match err.statusMatch with
    | some statusCode => errorResponse statusCode err.msg
    | none => errorResponse 500 err.msg

/-! ## devLXD config handlers (`lxd-agent/devlxd.go`) -/

/-- Outcome of a `RawQuery` to the host LXD followed by
`resp.MetadataAsStruct`: a decoded value, a query error, or a metadata
parse error. -/
inductive QueryOutcome (α : Type) where
  | ok (v : α) : QueryOutcome α
  | queryFailed (e : GoError) : QueryOutcome α
  | parseFailed (e : GoError) : QueryOutcome α

/-- Embedding of Go's `strings.HasPrefix(s, pre)`, reduced to the
character-list level. -/
def strStarts (s pre : String) : Bool :=
  pre.toList.isPrefixOf s.toList

/-- Guard used by `devLXDConfigGetHandler` on each host config URL:
`strings.HasPrefix(k, "/1.0/config/user.") || strings.HasPrefix(k,
"/1.0/config/cloud-init.")`. -/
def isGuestConfigURL (k : String) : Bool :=
  strStarts k "/1.0/config/user." || strStarts k "/1.0/config/cloud-init."

/-- Embedding of `devLXDConfigGetHandler` from `lxd-agent/devlxd.go`.
`connect` is the result of `getVsockClient`; on success the host's
answer to `GET /1.0/config` is a `QueryOutcome` over the config URL list.
The Go loop `for _, k := range config { if <prefix check> { filtered =
append(filtered, k) } }` is embedded as the identical left fold. -/
def devLXDConfigGetHandler
    (connect : Except GoError (QueryOutcome (List String))) : DevLXDResponse :=
  match connect with
  | .error e => smartResponse (some (wrapErr "Failed connecting to LXD over vsock: " e))
  | .ok (.queryFailed e) => smartResponse (some e)
  | .ok (.parseFailed e) => smartResponse (some (wrapErr "Failed parsing response from LXD: " e))
  | .ok (.ok config) =>
    okResponse
      (.strList (config.foldl
        (fun filtered k => if isGuestConfigURL k then filtered ++ [k] else filtered) []))
      "json"

/-- Embedding of `devLXDConfigKeyGetHandler` from `lxd-agent/devlxd.go`.
`keyVar` is the result of `url.PathUnescape(mux.Vars(r)["key"])`;
`connect` is the result of `getVsockClient`, yielding on success the
host's answer to a raw query per path.  The second component of the
result records every query path issued to the host LXD. -/
def devLXDConfigKeyGetHandler
    (keyVar : Except Unit String)
    (connect : Except GoError (String → QueryOutcome String)) :
    DevLXDResponse × List String :=
  match keyVar with
  | .error _ => (errorResponse 400 "bad request", [])
  | .ok key =>
    if !strStarts key "user." && !strStarts key "cloud-init." then
      (errorResponse 403 "not authorized", [])
    else
      match connect with
      | .error e =>
        (smartResponse (some (wrapErr "Failed connecting to LXD over vsock: " e)), [])
      | .ok host =>
        match host ("/1.0/config/" ++ key) with
        | .queryFailed e => (smartResponse (some e), ["/1.0/config/" ++ key])
        | .parseFailed e =>
          (smartResponse (some (wrapErr "Failed parsing response from LXD: " e)),
            ["/1.0/config/" ++ key])
        | .ok value => (okResponse (.str value) "raw", ["/1.0/config/" ++ key])

/-! ## Network-ACL rule model and priority compiler -/

/-- Modelled from the spec: the rule `action` enumeration
{allow, reject, drop} (the engine's Go sources are not in this tree; only
their documentation is). -/
inductive Action where
  | allow : Action
  | reject : Action
  | drop : Action
deriving DecidableEq

/-- Modelled from the spec: the rule `state` enumeration
{enabled, disabled, logged}. -/
inductive RuleState where
  | enabled : RuleState
  | disabled : RuleState
  | logged : RuleState
deriving DecidableEq

/-- Modelled from the spec: the rule `protocol` enumeration, with `any`
standing for the unset protocol (`""`), which matches any protocol. -/
inductive Protocol where
  | any : Protocol
  | tcp : Protocol
  | udp : Protocol
  | icmp4 : Protocol
  | icmp6 : Protocol
deriving DecidableEq

/-- Modelled from the spec: traffic direction of a rule list. -/
inductive Direction where
  | ingress : Direction
  | egress : Direction
deriving DecidableEq

/-- Modelled from the spec: a validated ACL rule as the compiler sees it,
with selectors already resolved to concrete address sets.  Addresses and
ports are abstracted as naturals; `none` for a source/destination or port
field means the field is empty and matches anything. -/
structure Rule where
  action : Action
  state : RuleState := .enabled
  protocol : Protocol := .any
  source : Option (List Nat) := none
  destination : Option (List Nat) := none
  source_port : Option (List Nat) := none
  destination_port : Option (List Nat) := none
  icmp_type : Option Nat := none
  icmp_code : Option Nat := none
deriving DecidableEq

/-- Modelled from the spec: a hypothetical packet with the
backend-evaluated fields (protocol, addresses, ports, ICMP type/code). -/
structure Packet where
  protocol : Protocol
  src : Nat
  dst : Nat
  sport : Nat
  dport : Nat
  icmpType : Nat
  icmpCode : Nat
deriving DecidableEq

/-- Matching of an optional concrete set against a packet field: an empty
(unset) field matches any value. -/
def fieldMatches (spec : Option (List Nat)) (v : Nat) : Bool :=
  match spec with
  | none => true
  | some s => s.contains v

/-- Modelled from the spec: backend-evaluated field matching of a rule
against a packet — protocol, address, port/ICMP. -/
def ruleMatches (r : Rule) (p : Packet) : Bool :=
  (r.protocol == .any || r.protocol == p.protocol) &&
  fieldMatches r.source p.src &&
  fieldMatches r.destination p.dst &&
  fieldMatches r.source_port p.sport &&
  fieldMatches r.destination_port p.dport &&
  (r.icmp_type.all fun t => t == p.icmpType) &&
  (r.icmp_code.all fun c => c == p.icmpCode)

/-- Modelled from the spec: an ACL holds an ordered `ingress` and an
ordered `egress` rule list. -/
structure ACL where
  name : String
  ingress : List Rule := []
  egress : List Rule := []
deriving DecidableEq

/-- Rule list of an ACL for the requested direction. -/
def rulesFor (acl : ACL) (d : Direction) : List Rule :=
  match d with
  | .ingress => acl.ingress
  | .egress => acl.egress

/-- Modelled from the spec: a disabled rule participates in no
compilation. -/
def enabledRules (acl : ACL) (d : Direction) : List Rule :=
  (rulesFor acl d).filter (fun r => r.state != .disabled)

/-- Modelled from the spec: the tier for action `a` — the union of all
enabled rules with that action from all assigned ACLs, gathered in
assignment-list order. -/
def tierOf (acls : List ACL) (d : Direction) (a : Action) : List Rule :=
  (acls.flatMap (fun acl => enabledRules acl d)).filter (fun r => r.action == a)

/-- Modelled from the spec: the synthesized default rule, matching all
otherwise-unmatched traffic. -/
def defaultRule (a : Action) : Rule :=
  { action := a }

/-- Modelled from the spec: the effective default action — NIC-level
override, else network-level override, else the global default
`reject`. -/
def effectiveDefault (nicOverride netOverride : Option Action) : Action :=
  match nicOverride with
  | some a => a
  | none =>
    match netOverride with
    | some a => a
    | none => .reject

/-- Modelled from the spec: per target and direction, the four-tier
compiled output {drop, reject, allow, default}. -/
structure CompiledRuleSet where
  dropTier : List Rule
  rejectTier : List Rule
  allowTier : List Rule
  defaultTier : List Rule
deriving DecidableEq

/-- Modelled from the spec: `Compile(target, direction)`.  `acls` is the
list of ACLs assigned to the target (directly or via its network) in
assignment-list order; `nicOverride`/`netOverride` are the per-target
`security.acls.default.<direction>.action` settings.  An empty
assigned-ACL list yields no compiled output at all (no tiers, no
synthesized default rule); otherwise the three action tiers are bucketed
and the always-present default tier is synthesized. -/
def compile (acls : List ACL) (d : Direction)
    (nicOverride netOverride : Option Action) : Option CompiledRuleSet :=
  if acls.isEmpty then
    none
  else
    some
      { dropTier := tierOf acls d .drop
        rejectTier := tierOf acls d .reject
        allowTier := tierOf acls d .allow
        defaultTier := [defaultRule (effectiveDefault nicOverride netOverride)] }

/-- Modelled from the spec: evaluation order for a hypothetical packet —
every rule in `drop`, then `reject`, then `allow`; the first matching
rule's action decides; otherwise the `default` tier applies. -/
def decision (c : CompiledRuleSet) (p : Packet) : Option Action :=
  if c.dropTier.any (fun r => ruleMatches r p) then some .drop
  else if c.rejectTier.any (fun r => ruleMatches r p) then some .reject
  else if c.allowTier.any (fun r => ruleMatches r p) then some .allow
  else (c.defaultTier.find? (fun r => ruleMatches r p)).map (fun r => r.action)

/-! ## Rule and name validation -/

/-- Modelled from the spec: a rule in its on-wire form, every field a
string; an empty string is an unset field. -/
structure RuleFields where
  action : String := ""
  state : String := ""
  protocol : String := ""
  source : String := ""
  destination : String := ""
  source_port : String := ""
  destination_port : String := ""
  icmp_type : String := ""
  icmp_code : String := ""
deriving DecidableEq

/-- Allowed `action` values. -/
def validActionStr (s : String) : Bool :=
  s == "allow" || s == "reject" || s == "drop"

/-- Allowed `state` values (empty defaults to `enabled`). -/
def validStateStr (s : String) : Bool :=
  s == "" || s == "enabled" || s == "disabled" || s == "logged"

/-- Allowed `protocol` values (empty matches any protocol). -/
def validProtocolStr (s : String) : Bool :=
  s == "" || s == "tcp" || s == "udp" || s == "icmp4" || s == "icmp6"

/-- A port field is set while the protocol is not `tcp` or `udp`. -/
def portViolation (r : RuleFields) : Bool :=
  (r.source_port != "" || r.destination_port != "") &&
  !(r.protocol == "tcp" || r.protocol == "udp")

/-- An ICMP field is set while the protocol is not `icmp4` or `icmp6`. -/
def icmpViolation (r : RuleFields) : Bool :=
  (r.icmp_type != "" || r.icmp_code != "") &&
  !(r.protocol == "icmp4" || r.protocol == "icmp6")

/-- Modelled from the spec: the rule check of `Validate` (the validator's
Go source is not in this tree).  A pure function; the first violated
field-combination invariant is reported as a `ValidationError`, before any
state change and before the rule can reach the compiler. -/
def validateRule (r : RuleFields) : Except String Unit :=
  if !validActionStr r.action then
    .error "Invalid action"
  else if !validStateStr r.state then
    .error "Invalid state"
  else if !validProtocolStr r.protocol then
    .error "Invalid protocol"
  else if portViolation r then
    .error "Port fields require protocol tcp or udp"
  else if icmpViolation r then
    .error "ICMP fields require protocol icmp4 or icmp6"
  else
    .ok ()

/-- ASCII letter, per the documented name requirements. -/
def isNameLetterChar (c : Char) : Bool :=
  ('a' ≤ c && c ≤ 'z') || ('A' ≤ c && c ≤ 'Z')

/-- ASCII digit. -/
def isNameDigitChar (c : Char) : Bool :=
  '0' ≤ c && c ≤ '9'

/-- Character allowed anywhere in an ACL name: ASCII letter, digit or
dash. -/
def isNameChar (c : Char) : Bool :=
  isNameLetterChar c || isNameDigitChar c || c == '-'

/-- First character cannot be a digit or a dash (false on the empty
name). -/
def headNotDigitDash (l : List Char) : Bool :=
  match l.head? with
  | some c => !(isNameDigitChar c || c == '-')
  | none => false

/-- Last character cannot be a dash (false on the empty name). -/
def lastNotDash (l : List Char) : Bool :=
  match l.getLast? with
  | some c => c != '-'
  | none => false

/-- Modelled from the spec: the name-format check of `Validate`, from the
documented name requirements — between 1 and 63 characters, only ASCII
letters, digits and dashes, cannot begin with a digit or a dash, cannot
end with a dash. -/
def validACLName (s : String) : Bool :=
  decide (1 ≤ s.toList.length) && decide (s.toList.length ≤ 63) &&
  s.toList.all isNameChar &&
  headNotDigitDash s.toList &&
  lastNotDash s.toList

/-- Matcher for `[A-Za-z0-9-]*[A-Za-z0-9]`: at least one character, all in
the name character class, the last an ASCII letter or digit. -/
def matchesTailEnd : List Char → Bool
  | [] => false
  | [c] => isNameLetterChar c || isNameDigitChar c
  | c :: c' :: rest => isNameChar c && matchesTailEnd (c' :: rest)

/-- Matcher for the regular expression `[A-Za-z][A-Za-z0-9-]*[A-Za-z0-9]`
quoted by the spec for ACL names (which requires at least two
characters). -/
def matchesSpecNameRegex (l : List Char) : Bool :=
  match l with
  | [] => false
  | c :: rest => isNameLetterChar c && matchesTailEnd rest

/-- Acceptance predicate stated by the spec sentence: length between 1 and
63 and a match of `[A-Za-z][A-Za-z0-9-]*[A-Za-z0-9]`. -/
def specNameAccepts (s : String) : Bool :=
  decide (1 ≤ s.toList.length) && decide (s.toList.length ≤ 63) &&
  matchesSpecNameRegex s.toList

/-- Matcher for the amended regular expression
`[A-Za-z]([A-Za-z0-9-]*[A-Za-z0-9])?`, which also admits one-character
names. -/
def matchesAmendedNameRegex (l : List Char) : Bool :=
  match l with
  | [] => false
  | c :: rest => isNameLetterChar c && (rest.isEmpty || matchesTailEnd rest)

/-- Acceptance predicate of the amended claim: length between 1 and 63 and
a match of `[A-Za-z]([A-Za-z0-9-]*[A-Za-z0-9])?`. -/
def amendedNameAccepts (s : String) : Bool :=
  decide (1 ≤ s.toList.length) && decide (s.toList.length ≤ 63) &&
  matchesAmendedNameRegex s.toList

/-! ## Backend apply with bounded retries -/

/-- Modelled from the spec: outcome classes of one backend `Apply`/`Remove`
attempt — success, a transient failure (timeout, temporary resource busy;
retried with backoff), or a non-transient failure (malformed backend
config, permission denial; surfaced immediately without retry). -/
inductive ApplyOutcome where
  | ok : ApplyOutcome
  | transient : ApplyOutcome
  | fatal : ApplyOutcome
deriving DecidableEq

/-- Modelled from the spec: the per-target state the engine maintains —
the ACL/assignment definition as last requested by the caller, and the
last successfully applied (enforced) compiled rule set (`none` while no
policy is applied). -/
structure EngineState where
  definition : List String
  enforced : Option CompiledRuleSet
deriving DecidableEq

/-- Modelled from the spec: the bounded retry loop around backend
`Apply`/`Remove`.  `backend` lists the outcomes of the successive attempts
(its length is the retry bound); `want` is the enforcement state the call
is to install (`some c` for `Apply`, `none` for `Remove`); `current` is
the previously enforced state.  Returns the resulting enforcement state
and whether the call succeeded: a transient outcome consumes one retry, a
fatal outcome stops immediately, running out of attempts is a failure, and
on every failure the previous enforcement state is kept. -/
def applyWithRetries :
    List ApplyOutcome → Option CompiledRuleSet → Option CompiledRuleSet →
    Option CompiledRuleSet × Bool
  | [], _, current => (current, false)
  | .ok :: _, want, _ => (want, true)
  | .fatal :: _, _, current => (current, false)
  | .transient :: rest, want, current => applyWithRetries rest want current

/-- Modelled from the spec: one `Apply`/`Remove` mutation against a
target.  The definition is committed as the caller requested it (the
engine never auto-rolls it back), then enforcement is attempted through
`applyWithRetries`. -/
def runMutation (requested : List String) (want : Option CompiledRuleSet)
    (backend : List ApplyOutcome) (st : EngineState) : EngineState × Bool :=
  let res := applyWithRetries backend want st.enforced
  ({ definition := requested, enforced := res.1 }, res.2)

/-! ## Helper lemmas -/

/-- Appending matching elements while folding over a list is filtering:
the accumulator-passing form of the Go `for`/`append` loop. -/
theorem foldl_append_eq_filter (p : String → Bool) (l acc : List String) :
    l.foldl (fun filtered k => if p k then filtered ++ [k] else filtered) acc =
      acc ++ l.filter p := by
  induction l generalizing acc with
  | nil => simp
  | cons k rest ih =>
    by_cases h : p k = true
    · simp [List.foldl_cons, h, ih, List.filter_cons]
    · simp only [Bool.not_eq_true] at h
      simp [List.foldl_cons, h, ih, List.filter_cons]

/-! ## Claims about the devLXD handlers -/

/-- Claim C8: a guest request to the devLXD single-config-key endpoint
whose path-unescaped key starts with neither `user.` nor `cloud-init.` is
answered with HTTP status 403 and body "not authorized", and no query is
issued to the host LXD, so no instance configuration key outside those two
namespaces is disclosed to the guest. -/
theorem claim8_config_key_gate
    (key : String) (connect : Except GoError (String → QueryOutcome String))
    (h1 : strStarts key "user." = false)
    (h2 : strStarts key "cloud-init." = false) :
    devLXDConfigKeyGetHandler (.ok key) connect =
      (errorResponse 403 "not authorized", []) := by
  simp [devLXDConfigKeyGetHandler, h1, h2]

/-- Witness for C8: the key `security.nesting` lies outside both guest
namespaces and is answered 403 with no host query. -/
theorem claim8_config_key_gate_witness :
    strStarts "security.nesting" "user." = false ∧
    strStarts "security.nesting" "cloud-init." = false ∧
    devLXDConfigKeyGetHandler (.ok "security.nesting")
        (.ok fun _ => .ok "secret") =
      (errorResponse 403 "not authorized", []) :=
  ⟨by decide, by decide,
    claim8_config_key_gate "security.nesting" (.ok fun _ => .ok "secret")
      (by decide) (by decide)⟩

/-- Claim C9: on success `devLXDConfigGetHandler` returns exactly the
host's config URLs with prefix `/1.0/config/user.` or
`/1.0/config/cloud-init.`, in their original relative order, and an empty
list (status 200, not an error) when no entry matches. -/
theorem claim9_config_list_filtered (config : List String) :
    devLXDConfigGetHandler (.ok (.ok config)) =
      okResponse (.strList (config.filter isGuestConfigURL)) "json" ∧
    (∀ k ∈ config.filter isGuestConfigURL,
      strStarts k "/1.0/config/user." = true ∨
      strStarts k "/1.0/config/cloud-init." = true) ∧
    (config.filter isGuestConfigURL).Sublist config ∧
    ((∀ k ∈ config, isGuestConfigURL k = false) →
      devLXDConfigGetHandler (.ok (.ok config)) =
        okResponse (.strList []) "json") := by
  refine ⟨?_, ?_, List.filter_sublist config, ?_⟩
  · simp [devLXDConfigGetHandler, foldl_append_eq_filter]
  · intro k hk
    have h := (List.mem_filter.mp hk).2
    simp only [isGuestConfigURL, Bool.or_eq_true] at h
    exact h
  · intro hnone
    have h : config.filter isGuestConfigURL = [] :=
      List.filter_eq_nil_iff.mpr (fun k hk => by simp [hnone k hk])
    simp [devLXDConfigGetHandler, foldl_append_eq_filter, h]

/-- Witness for C9: a mixed host list keeps exactly the guest-visible
entry, and a host list with no guest-visible entry yields the empty list
with status 200. -/
theorem claim9_config_list_filtered_witness :
    devLXDConfigGetHandler (.ok (.ok ["/1.0/config/user.one", "/1.0/config/limits.cpu"])) =
      okResponse (.strList ["/1.0/config/user.one"]) "json" ∧
    devLXDConfigGetHandler (.ok (.ok ["/1.0/config/limits.cpu"])) =
      okResponse (.strList []) "json" :=
  ⟨(claim9_config_list_filtered ["/1.0/config/user.one", "/1.0/config/limits.cpu"]).1.trans
      (by decide),
    (claim9_config_list_filtered ["/1.0/config/limits.cpu"]).2.2.2 (by decide)⟩

/-- Claim C10 counterexample: for the error `api.NewStatusError(200,
"boom")` — a non-nil error whose matched status code is 200 —
`smartResponse` produces a response with status 200, so "the result is a
non-200 error response if and only if the argument is a non-nil error"
fails as stated. -/
theorem claim10_counterexample :
    ¬((smartResponse (some { msg := "boom", statusMatch := some 200 })).code ≠ 200 ↔
      (some { msg := "boom", statusMatch := some 200 } : Option GoError) ≠ none) := by
  decide

/-- Claim C10 (amended): `smartResponse nil` is an OK response with status
200; for every non-nil error the response carries the status code matched
by `api.StatusErrorMatch` (500 when no match is found) with the error's
message as content; and the result has a non-200 status exactly when the
argument is a non-nil error whose matched status (500 when unmatched) is
not 200. -/
theorem claim10_smartResponse_spec :
    smartResponse none = okResponse .nil "" ∧
    (∀ e : GoError,
      smartResponse (some e) = errorResponse (e.statusMatch.getD 500) e.msg) ∧
    (∀ o : Option GoError, (smartResponse o).code ≠ 200 ↔
      ∃ e, o = some e ∧ e.statusMatch.getD 500 ≠ 200) := by
  refine ⟨rfl, ?_, ?_⟩
  · intro e
    cases h : e.statusMatch <;> simp [smartResponse, h]
  · intro o
    cases o with
    | none => simp [smartResponse, okResponse]
    | some e =>
      cases h : e.statusMatch <;>
        simp [smartResponse, h, errorResponse, okResponse]

/-! ## Claims about the priority compiler -/

/-- A tier matches a packet exactly when some assigned ACL has an enabled
rule with that action matching the packet. -/
theorem tier_any_eq (acls : List ACL) (d : Direction) (a : Action) (p : Packet) :
    (tierOf acls d a).any (fun r => ruleMatches r p) =
      acls.any (fun acl =>
        (enabledRules acl d).any (fun r => r.action == a && ruleMatches r p)) := by
  simp [tierOf, List.any_filter, List.any_flatMap]

/-- `List.any` only depends on the multiset of elements. -/
theorem any_congr_perm {α : Type} (f : α → Bool) {l₁ l₂ : List α}
    (h : l₁.Perm l₂) : l₁.any f = l₂.any f := by
  rw [List.any_eq, List.any_eq]
  exact decide_eq_decide.mpr
    ⟨fun ⟨x, hx, hf⟩ => ⟨x, h.mem_iff.mp hx, hf⟩,
      fun ⟨x, hx, hf⟩ => ⟨x, h.mem_iff.mpr hx, hf⟩⟩

/-- The compiled output of a non-empty assignment list, componentwise. -/
theorem compile_eq_some (acls : List ACL) (d : Direction)
    (nicOv netOv : Option Action) (c : CompiledRuleSet)
    (hc : compile acls d nicOv netOv = some c) :
    c.dropTier = tierOf acls d .drop ∧
    c.rejectTier = tierOf acls d .reject ∧
    c.allowTier = tierOf acls d .allow ∧
    c.defaultTier = [defaultRule (effectiveDefault nicOv netOv)] := by
  unfold compile at hc
  cases he : acls.isEmpty with
  | true => rw [he] at hc; simp at hc
  | false =>
    rw [he] at hc
    simp only [Bool.false_eq_true, if_false, Option.some.injEq] at hc
    subst hc
    exact ⟨rfl, rfl, rfl, rfl⟩

/-- The synthesized default rule matches every packet. -/
theorem defaultRule_matches (a : Action) (p : Packet) :
    ruleMatches (defaultRule a) p = true := by
  simp [ruleMatches, defaultRule, fieldMatches, Option.all]

/-- The synthesized default rule carries the effective default action. -/
theorem defaultRule_action (a : Action) : (defaultRule a).action = a := rfl

/-- Claim C1: for every compiled target and direction and every packet, if
at least one enabled `drop` rule from any assigned ACL matches the packet,
the compiled decision is `drop`, regardless of rule declaration order and
ACL assignment order — the drop tier is evaluated before reject, allow and
the default tier. -/
theorem claim1_drop_precedence
    (acls : List ACL) (d : Direction) (nicOv netOv : Option Action)
    (p : Packet) (c : CompiledRuleSet)
    (hc : compile acls d nicOv netOv = some c)
    (hdrop : ∃ acl ∈ acls, ∃ r ∈ enabledRules acl d,
      r.action = .drop ∧ ruleMatches r p = true) :
    decision c p = some .drop := by
  obtain ⟨acl, hacl, r, hr, hact, hm⟩ := hdrop
  obtain ⟨hd, -, -, -⟩ := compile_eq_some acls d nicOv netOv c hc
  have hany : c.dropTier.any (fun r => ruleMatches r p) = true := by
    rw [hd]
    exact List.any_eq_true.mpr
      ⟨r, List.mem_filter.mpr
        ⟨List.mem_flatMap.mpr ⟨acl, hacl, hr⟩, by simp [hact]⟩, hm⟩
  simp [decision, hany]

/-- Witness for C1: the everything-matching enabled `drop` rule of
`block-acl` wins over the matching `allow` rule of `web` for a concrete
TCP packet. -/
theorem claim1_drop_precedence_witness :
    compile [{ name := "web", ingress := [{ action := .allow }] },
             { name := "block-acl", ingress := [{ action := .drop }] }]
        .ingress none none =
      some { dropTier := [{ action := .drop }]
             rejectTier := []
             allowTier := [{ action := .allow }]
             defaultTier := [defaultRule .reject] } ∧
    decision { dropTier := [{ action := .drop }]
               rejectTier := []
               allowTier := [{ action := .allow }]
               defaultTier := [defaultRule .reject] }
        { protocol := .tcp, src := 1, dst := 2, sport := 1234, dport := 80,
          icmpType := 0, icmpCode := 0 } = some .drop :=
  ⟨by decide,
    claim1_drop_precedence
      [{ name := "web", ingress := [{ action := .allow }] },
       { name := "block-acl", ingress := [{ action := .drop }] }]
      .ingress none none
      { protocol := .tcp, src := 1, dst := 2, sport := 1234, dport := 80,
        icmpType := 0, icmpCode := 0 }
      { dropTier := [{ action := .drop }]
        rejectTier := []
        allowTier := [{ action := .allow }]
        defaultTier := [defaultRule .reject] }
      (by decide)
      ⟨{ name := "block-acl", ingress := [{ action := .drop }] }, by decide,
        { action := .drop }, by decide, rfl, by decide⟩⟩

/-- Claim C2: compilation yields no output at all (no tiers, no
synthesized default rule) exactly when the target's assigned-ACL list is
empty; with at least one assigned ACL the default tier holding the
synthesized default rule is always present. -/
theorem claim2_empty_assignment_no_policy
    (acls : List ACL) (d : Direction) (nicOv netOv : Option Action) :
    (compile acls d nicOv netOv = none ↔ acls = []) ∧
    ∀ c, compile acls d nicOv netOv = some c →
      c.defaultTier = [defaultRule (effectiveDefault nicOv netOv)] := by
  constructor
  · cases acls with
    | nil => simp [compile]
    | cons a rest => simp [compile]
  · intro c hc
    exact (compile_eq_some acls d nicOv netOv c hc).2.2.2

/-- Witness for C2: an empty assignment list compiles to nothing, and a
one-ACL assignment carries the synthesized default tier. -/
theorem claim2_empty_assignment_no_policy_witness :
    compile ([] : List ACL) .ingress none none = none ∧
    ({ dropTier := [], rejectTier := [], allowTier := [],
       defaultTier := [defaultRule .reject] } : CompiledRuleSet).defaultTier =
      [defaultRule (effectiveDefault none none)] :=
  ⟨(claim2_empty_assignment_no_policy [] .ingress none none).1.mpr rfl,
    (claim2_empty_assignment_no_policy [{ name := "web" }] .ingress none none).2
      { dropTier := [], rejectTier := [], allowTier := [],
        defaultTier := [defaultRule .reject] }
      (by decide)⟩

/-- Claim C3: with at least one assigned ACL, a packet matched by no
enabled rule in any tier receives the effective default action — the
NIC-level override if set, else the network-level override if set, else
the global default `reject` — and the NIC-level override wins whenever
both overrides are set. -/
theorem claim3_default_action
    (acls : List ACL) (d : Direction) (nicOv netOv : Option Action)
    (p : Packet) (c : CompiledRuleSet)
    (hc : compile acls d nicOv netOv = some c)
    (hnm : ∀ acl ∈ acls, ∀ r ∈ enabledRules acl d, ruleMatches r p = false) :
    decision c p = some (effectiveDefault nicOv netOv) ∧
    ∀ a b : Action, effectiveDefault (some a) (some b) = a := by
  refine ⟨?_, fun a b => rfl⟩
  obtain ⟨hd, hr, ha, hdef⟩ := compile_eq_some acls d nicOv netOv c hc
  have hany : ∀ act : Action,
      (tierOf acls d act).any (fun r => ruleMatches r p) = false := by
    intro act
    rw [List.any_eq_false]
    intro r hrm
    have hmem := List.mem_filter.mp hrm
    obtain ⟨acl, hacl, hin⟩ := List.mem_flatMap.mp hmem.1
    simp [hnm acl hacl r hin]
  simp [decision, hd, hr, ha, hdef, hany, List.find?,
    defaultRule_matches, defaultRule_action]

/-- Witness for C3: a UDP packet misses the lone TCP `allow` rule of `web`
and falls through to the default action, the NIC-level override `allow`
(which wins over the network-level `drop`). -/
theorem claim3_default_action_witness :
    decision { dropTier := []
               rejectTier := []
               allowTier := [{ action := .allow, protocol := .tcp }]
               defaultTier := [defaultRule .allow] }
        { protocol := .udp, src := 1, dst := 2, sport := 1234, dport := 80,
          icmpType := 0, icmpCode := 0 } =
      some (effectiveDefault (some .allow) (some .drop)) ∧
    ∀ a b : Action, effectiveDefault (some a) (some b) = a :=
  claim3_default_action
    [{ name := "web", ingress := [{ action := .allow, protocol := .tcp }] }]
    .ingress (some .allow) (some .drop)
    { protocol := .udp, src := 1, dst := 2, sport := 1234, dport := 80,
      icmpType := 0, icmpCode := 0 }
    { dropTier := []
      rejectTier := []
      allowTier := [{ action := .allow, protocol := .tcp }]
      defaultTier := [defaultRule .allow] }
    (by decide)
    (by decide)

/-- Claim C6: `compile` is a deterministic, idempotent function of the ACL
definitions and assignment state — recompiling unchanged input yields
identical output — and the assignment-list order never affects the
decision for any packet: permuted assignment lists compile to rule sets
with identical decisions. -/
theorem claim6_deterministic_order_invariant :
    (∀ (acls : List ACL) (d : Direction) (nicOv netOv : Option Action),
      compile acls d nicOv netOv = compile acls d nicOv netOv) ∧
    ∀ (l₁ l₂ : List ACL), l₁.Perm l₂ →
      ∀ (d : Direction) (nicOv netOv : Option Action) (p : Packet)
        (c₁ c₂ : CompiledRuleSet),
        compile l₁ d nicOv netOv = some c₁ →
        compile l₂ d nicOv netOv = some c₂ →
        decision c₁ p = decision c₂ p := by
  refine ⟨fun _ _ _ _ => rfl, ?_⟩
  intro l₁ l₂ hperm d nicOv netOv p c₁ c₂ h₁ h₂
  obtain ⟨hd₁, hr₁, ha₁, hdef₁⟩ := compile_eq_some l₁ d nicOv netOv c₁ h₁
  obtain ⟨hd₂, hr₂, ha₂, hdef₂⟩ := compile_eq_some l₂ d nicOv netOv c₂ h₂
  have etier : ∀ act : Action,
      (tierOf l₁ d act).any (fun r => ruleMatches r p) =
        (tierOf l₂ d act).any (fun r => ruleMatches r p) := by
    intro act
    rw [tier_any_eq, tier_any_eq]
    exact any_congr_perm _ hperm
  rw [decision, decision, hd₁, hr₁, ha₁, hdef₁, hd₂, hr₂, ha₂, hdef₂,
    etier .drop, etier .reject, etier .allow]

/-- Witness for C6: recompiling the `web`/`block-acl` pair is byte-stable,
and swapping the two assigned ACLs leaves the decision for a concrete
packet unchanged. -/
theorem claim6_deterministic_order_invariant_witness :
    compile [{ name := "web", ingress := [{ action := .allow }] },
             { name := "block-acl", ingress := [{ action := .drop }] }]
        .ingress none none =
      compile [{ name := "web", ingress := [{ action := .allow }] },
               { name := "block-acl", ingress := [{ action := .drop }] }]
        .ingress none none ∧
    decision { dropTier := [{ action := .drop }]
               rejectTier := []
               allowTier := [{ action := .allow }]
               defaultTier := [defaultRule .reject] }
        { protocol := .tcp, src := 1, dst := 2, sport := 1234, dport := 80,
          icmpType := 0, icmpCode := 0 } =
      decision { dropTier := [{ action := .drop }]
                 rejectTier := []
                 allowTier := [{ action := .allow }]
                 defaultTier := [defaultRule .reject] }
        { protocol := .tcp, src := 1, dst := 2, sport := 1234, dport := 80,
          icmpType := 0, icmpCode := 0 } :=
  ⟨claim6_deterministic_order_invariant.1
      [{ name := "web", ingress := [{ action := .allow }] },
       { name := "block-acl", ingress := [{ action := .drop }] }]
      .ingress none none,
    claim6_deterministic_order_invariant.2
      [{ name := "web", ingress := [{ action := .allow }] },
       { name := "block-acl", ingress := [{ action := .drop }] }]
      [{ name := "block-acl", ingress := [{ action := .drop }] },
       { name := "web", ingress := [{ action := .allow }] }]
      (List.Perm.swap _ _ _)
      .ingress none none
      { protocol := .tcp, src := 1, dst := 2, sport := 1234, dport := 80,
        icmpType := 0, icmpCode := 0 }
      _ _ (by decide) (by decide)⟩

/-! ## Claims about validation and backend apply -/

/-- Claim C4: `Validate` rejects, with a `ValidationError` and before the
rule can reach the compiler, every rule that sets a port field
(`source_port`/`destination_port`) while `protocol` is not `tcp`/`udp`,
or an ICMP field (`icmp_type`/`icmp_code`) while `protocol` is not
`icmp4`/`icmp6`. -/
theorem claim4_mutually_exclusive_rejected
    (r : RuleFields)
    (h : (portViolation r || icmpViolation r) = true) :
    ∃ e, validateRule r = .error e := by
  unfold validateRule
  split
  · exact ⟨_, rfl⟩
  · split
    · exact ⟨_, rfl⟩
    · split
      · exact ⟨_, rfl⟩
      · split
        · exact ⟨_, rfl⟩
        · split
          · exact ⟨_, rfl⟩
          · rename_i hport hicmp
            simp only [Bool.or_eq_true] at h
            rcases h with h | h <;> simp_all

/-- Witness for C4: a rule with `destination_port="80"` and
`protocol=icmp4` is rejected by the validator. -/
theorem claim4_mutually_exclusive_rejected_witness :
    (portViolation { action := "allow", protocol := "icmp4",
                     destination_port := "80" } ||
      icmpViolation { action := "allow", protocol := "icmp4",
                      destination_port := "80" }) = true ∧
    ∃ e, validateRule { action := "allow", protocol := "icmp4",
                        destination_port := "80" } = .error e :=
  ⟨by decide,
    claim4_mutually_exclusive_rejected
      { action := "allow", protocol := "icmp4", destination_port := "80" }
      (by decide)⟩

/-- A failed bounded-retry apply leaves the enforcement state untouched. -/
theorem applyWithRetries_failed
    (backend : List ApplyOutcome) (want current : Option CompiledRuleSet)
    (h : (applyWithRetries backend want current).2 = false) :
    (applyWithRetries backend want current).1 = current := by
  induction backend with
  | nil => rfl
  | cons o rest ih =>
    cases o with
    | ok => simp [applyWithRetries] at h
    | fatal => rfl
    | transient => exact ih (by simpa [applyWithRetries] using h)

/-- Claim C7: every `Apply`/`Remove` call that fails — backend timeout,
non-transient rejection, or exhausted bounded retries — leaves the
target's previous enforcement state in place unchanged (no partial apply
is reported as success), while the ACL/assignment definition is not
rolled back and remains as the caller requested. -/
theorem claim7_failed_mutation_preserves_state
    (requested : List String) (want : Option CompiledRuleSet)
    (backend : List ApplyOutcome) (st : EngineState)
    (hfail : (runMutation requested want backend st).2 = false) :
    (runMutation requested want backend st).1.enforced = st.enforced ∧
    (runMutation requested want backend st).1.definition = requested :=
  ⟨applyWithRetries_failed backend want st.enforced hfail, rfl⟩

/-- Witness for C7: an apply whose backend times out once and then rejects
non-transiently fails, keeps the previous (empty) enforcement state, and
keeps the newly requested definition. -/
theorem claim7_failed_mutation_preserves_state_witness :
    (runMutation ["web"]
        (some { dropTier := [], rejectTier := [], allowTier := [],
                defaultTier := [defaultRule .reject] })
        [.transient, .fatal]
        { definition := ["old"], enforced := none }).2 = false ∧
    (runMutation ["web"]
        (some { dropTier := [], rejectTier := [], allowTier := [],
                defaultTier := [defaultRule .reject] })
        [.transient, .fatal]
        { definition := ["old"], enforced := none }).1.enforced = none ∧
    (runMutation ["web"]
        (some { dropTier := [], rejectTier := [], allowTier := [],
                defaultTier := [defaultRule .reject] })
        [.transient, .fatal]
        { definition := ["old"], enforced := none }).1.definition = ["web"] :=
  ⟨by decide,
    (claim7_failed_mutation_preserves_state ["web"] _ _ _ (by decide)).1,
    (claim7_failed_mutation_preserves_state ["web"] _ _ _ (by decide)).2⟩

/-! ## Claim about ACL name validation -/

/-- The ASCII letter and digit ranges are disjoint. -/
theorem letter_not_digit (c : Char) (h : isNameLetterChar c = true) :
    isNameDigitChar c = false := by
  simp only [isNameLetterChar, Bool.or_eq_true, Bool.and_eq_true,
    decide_eq_true_eq] at h
  cases hd : isNameDigitChar c with
  | false => rfl
  | true =>
    exfalso
    simp only [isNameDigitChar, Bool.and_eq_true, decide_eq_true_eq] at hd
    rcases h with ⟨h1, -⟩ | ⟨h1, -⟩
    · exact absurd (le_trans h1 hd.2) (by decide)
    · exact absurd (le_trans h1 hd.2) (by decide)

/-- An ASCII letter is not the dash. -/
theorem letter_not_dash (c : Char) (h : isNameLetterChar c = true) :
    (c == '-') = false := by
  cases hd : c == '-' with
  | false => rfl
  | true =>
    exfalso
    have hc : c = '-' := by simpa using hd
    subst hc
    simp only [isNameLetterChar, Bool.or_eq_true, Bool.and_eq_true,
      decide_eq_true_eq] at h
    rcases h with ⟨h1, -⟩ | ⟨h1, -⟩ <;> exact absurd h1 (by decide)

/-- An ASCII digit is not the dash. -/
theorem digit_not_dash (c : Char) (h : isNameDigitChar c = true) :
    (c == '-') = false := by
  cases hd : c == '-' with
  | false => rfl
  | true =>
    exfalso
    have hc : c = '-' := by simpa using hd
    subst hc
    simp only [isNameDigitChar, Bool.and_eq_true, decide_eq_true_eq] at h
    exact absurd h.1 (by decide)

/-- Exhaustive split of a character against the three disjoint pieces of
the name character class. -/
theorem nameClass_split (c : Char) :
    (isNameLetterChar c = true ∧ isNameDigitChar c = false ∧ (c == '-') = false) ∨
    (isNameLetterChar c = false ∧ isNameDigitChar c = true ∧ (c == '-') = false) ∨
    (isNameLetterChar c = false ∧ isNameDigitChar c = false ∧ (c == '-') = true) ∨
    (isNameLetterChar c = false ∧ isNameDigitChar c = false ∧ (c == '-') = false) := by
  cases hl : isNameLetterChar c with
  | true => exact .inl ⟨rfl, letter_not_digit c hl, letter_not_dash c hl⟩
  | false =>
    cases hd : isNameDigitChar c with
    | true => exact .inr (.inl ⟨rfl, rfl, digit_not_dash c hd⟩)
    | false =>
      cases hdash : c == '-' with
      | true => exact .inr (.inr (.inl ⟨rfl, rfl, rfl⟩))
      | false => exact .inr (.inr (.inr ⟨rfl, rfl, rfl⟩))

/-- Unfolding of the first-character check on a non-empty list. -/
theorem headNotDigitDash_cons (c : Char) (rest : List Char) :
    headNotDigitDash (c :: rest) = !(isNameDigitChar c || c == '-') := rfl

/-- Unfolding of the last-character check on a one-character list. -/
theorem lastNotDash_singleton (c : Char) :
    lastNotDash [c] = !(c == '-') := rfl

/-- The last-character check ignores a prepended head on lists of two or
more characters. -/
theorem lastNotDash_cons_cons (c c' : Char) (rest : List Char) :
    lastNotDash (c :: c' :: rest) = lastNotDash (c' :: rest) := by
  simp [lastNotDash, List.getLast?_cons_cons]

/-- `[A-Za-z0-9-]*[A-Za-z0-9]` is exactly: non-empty, all characters in
the name class, and not ending with a dash. -/
theorem matchesTailEnd_eq :
    ∀ l : List Char, matchesTailEnd l = (l.all isNameChar && lastNotDash l)
  | [] => by
    rw [show matchesTailEnd [] = false from rfl,
      show lastNotDash [] = false from rfl, Bool.and_false]
  | [c] => by
    rw [show matchesTailEnd [c] = (isNameLetterChar c || isNameDigitChar c) from rfl,
      show [c].all isNameChar = (isNameChar c && true) from rfl,
      lastNotDash_singleton, show isNameChar c =
        (isNameLetterChar c || isNameDigitChar c || c == '-') from rfl]
    rcases nameClass_split c with ⟨h1, h2, h3⟩ | ⟨h1, h2, h3⟩ | ⟨h1, h2, h3⟩ |
      ⟨h1, h2, h3⟩ <;> rw [h1, h2, h3] <;> rfl
  | c :: c' :: rest => by
    rw [show matchesTailEnd (c :: c' :: rest) =
        (isNameChar c && matchesTailEnd (c' :: rest)) from rfl,
      matchesTailEnd_eq (c' :: rest), lastNotDash_cons_cons,
      show (c :: c' :: rest).all isNameChar =
        (isNameChar c && (c' :: rest).all isNameChar) from rfl,
      Bool.and_assoc]

/-- The amended regular expression `[A-Za-z]([A-Za-z0-9-]*[A-Za-z0-9])?`
is exactly the documented name-shape checks: all characters in the class,
not beginning with a digit or dash, not ending with a dash. -/
theorem matchesAmendedNameRegex_eq (l : List Char) :
    matchesAmendedNameRegex l =
      (l.all isNameChar && headNotDigitDash l && lastNotDash l) := by
  cases l with
  | nil =>
    rw [show matchesAmendedNameRegex [] = false from rfl,
      show headNotDigitDash [] = false from rfl,
      show lastNotDash [] = false from rfl, Bool.and_false]
  | cons c rest =>
    cases rest with
    | nil =>
      rw [show matchesAmendedNameRegex [c] =
          (isNameLetterChar c && (true || matchesTailEnd [])) from rfl,
        Bool.true_or, Bool.and_true,
        show [c].all isNameChar = (isNameChar c && true) from rfl,
        headNotDigitDash_cons, lastNotDash_singleton,
        show isNameChar c =
          (isNameLetterChar c || isNameDigitChar c || c == '-') from rfl]
      rcases nameClass_split c with ⟨h1, h2, h3⟩ | ⟨h1, h2, h3⟩ | ⟨h1, h2, h3⟩ |
        ⟨h1, h2, h3⟩ <;> rw [h1, h2, h3] <;> rfl
    | cons c' rest' =>
      rw [show matchesAmendedNameRegex (c :: c' :: rest') =
          (isNameLetterChar c && (false || matchesTailEnd (c' :: rest'))) from rfl,
        Bool.false_or, matchesTailEnd_eq (c' :: rest'),
        headNotDigitDash_cons, lastNotDash_cons_cons,
        show (c :: c' :: rest').all isNameChar =
          (isNameChar c && (c' :: rest').all isNameChar) from rfl,
        show isNameChar c =
          (isNameLetterChar c || isNameDigitChar c || c == '-') from rfl]
      rcases nameClass_split c with ⟨h1, h2, h3⟩ | ⟨h1, h2, h3⟩ | ⟨h1, h2, h3⟩ |
        ⟨h1, h2, h3⟩ <;> rw [h1, h2, h3] <;>
        cases (c' :: rest').all isNameChar <;>
          cases lastNotDash (c' :: rest') <;> rfl

/-- Claim C5 counterexample: the one-character name `"a"` is accepted by
the documented name validation but does not match the claim's regular
expression `[A-Za-z][A-Za-z0-9-]*[A-Za-z0-9]` (which requires at least two
characters), so "Validate accepts exactly the names of length 1–63
matching that expression" is false at `"a"`. -/
theorem claim5_counterexample :
    ¬(validACLName "a" = specNameAccepts "a") := by
  decide

/-- Claim C5 (amended): `Validate` accepts a candidate ACL name exactly
when it is between 1 and 63 characters long and matches
`[A-Za-z]([A-Za-z0-9-]*[A-Za-z0-9])?` — it begins with an ASCII letter,
contains only ASCII letters, digits and dashes, and does not end with a
dash, one-character letter names included. -/
theorem claim5_name_grammar (s : String) :
    validACLName s = amendedNameAccepts s := by
  unfold validACLName amendedNameAccepts
  rw [matchesAmendedNameRegex_eq]
  simp [Bool.and_assoc]

end LXDSpec
